import Mathlib

/-!
Verification development for the public-data-explorer query result cache and
query-enhancement engine.

The definitions below are a shallow embedding of the Python source:
  - `explorer/dal/cache_manager.py` (key derivation `generate_cache_key`,
    the `CacheManager` TTL-index setup, and its cache-entry store),
  - `explorer/cache_manager.py` (the legacy `MongoCacheManager` variant),
  - `explorer/data_service.py` (`WikidataDataService`: query enhancement
    `_enhance_query_with_labels`, entity-variable classification
    `_is_entity_variable`, and the executor `_execute_sparql_query` /
    `execute_custom_query`).

Python strings are `String`, machine integers are `Nat` with explicit
`% 2 ^ 32` where the source relies on 32-bit wraparound (inside SHA-256),
Python `None`-or-value results are `Option`, and the external SPARQL
endpoint is an oracle parameter.
-/

/-! ## Python string primitives (ASCII fragment used by the source) -/

/-- Python `\s` / `str.strip` whitespace, ASCII fragment:
space, tab, newline, carriage return, vertical tab, form feed. -/
def pyIsSpace (c : Char) : Bool :=
  c == ' ' || c == '\t' || c == '\n' || c == '\r' ||
  c == Char.ofNat 11 || c == Char.ofNat 12

/-- Python `\w` word character, ASCII fragment: letters, digits, underscore. -/
def pyIsWord (c : Char) : Bool :=
  c.isAlpha || c.isDigit || c == '_'

/-- Python `str.strip()`. -/
def pyStrip (s : String) : String :=
  String.mk (((s.data.dropWhile pyIsSpace).reverse.dropWhile pyIsSpace).reverse)

/-- Python `str.rstrip()`. -/
def pyRstrip (s : String) : String :=
  String.mk ((s.data.reverse.dropWhile pyIsSpace).reverse)

/-- Worker for `re.sub(r'\s+', ' ', s)`: every maximal whitespace run
becomes a single space. The fuel argument (instantiated with the list
length) only makes the recursion structural; it never runs out. -/
def collapseWsGo : Nat → List Char → List Char
  | _, [] => []
  | 0, l => l
  | fuel + 1, c :: rest =>
    if pyIsSpace c then ' ' :: collapseWsGo fuel (rest.dropWhile pyIsSpace)
    else c :: collapseWsGo fuel rest

/-- Python `re.sub(r'\s+', ' ', s)`. -/
def collapseWs (s : String) : String :=
  String.mk (collapseWsGo s.data.length s.data)

/-- Python `str.lower()`, ASCII fragment. -/
def pyLower (s : String) : String := String.mk (s.data.map Char.toLower)

/-- The normalization pipeline inside `generate_cache_key`
(`explorer/dal/cache_manager.py` lines 128-130):
strip, collapse interior whitespace runs, lower-case. -/
def normalized_query (q : String) : String := pyLower (collapseWs (pyStrip q))

/-! ## Regex simulation for the query enhancer

The enhancer uses three Python regex operations, reproduced here
operationally (leftmost match, greedy `\s+`, lazy `(.*?)`,
`re.IGNORECASE`, `re.DOTALL`):
  - `re.search(r'SELECT\s+(.*?)\s+WHERE', q, re.IGNORECASE | re.DOTALL)`
  - `re.findall(r'\?(\w+)', select_vars)`
  - the four `re.search(..., re.IGNORECASE)` entity patterns.
-/

/-- Case-insensitive literal match of `pat` at index `i` of `cs`. -/
def matchCI (cs : List Char) (i : Nat) (pat : List Char) : Bool :=
  ((cs.drop i).take pat.length).map Char.toLower == pat.map Char.toLower

/-- Length of the whitespace run starting at index `i`. -/
def wsRun (cs : List Char) (i : Nat) : Nat :=
  ((cs.drop i).takeWhile pyIsSpace).length

/-- Length of the word-character run starting at index `i`. -/
def wordRun (cs : List Char) (i : Nat) : Nat :=
  ((cs.drop i).takeWhile pyIsWord).length

/-- Length of the digit run starting at index `i`. -/
def digitRun (cs : List Char) (i : Nat) : Nat :=
  ((cs.drop i).takeWhile Char.isDigit).length

/-- After the lazy group ends at position `p`, the tail of the projection
regex (`\s+WHERE`, case-insensitive) must match: some `k ∈ [1..run]`
whitespace characters followed by `WHERE`. -/
def whereAfterWs (cs : List Char) (p : Nat) : Bool :=
  (List.range (wsRun cs p)).any fun d => matchCI cs (p + d + 1) "where".data

/-- Attempt `SELECT\s+(.*?)\s+WHERE` at start position `i`, returning the
lazy group `(.*?)`. `\s+` is greedy (longest first), the group is lazy
(shortest first), mirroring the backtracking order of `re`. -/
def selectGroupAt (cs : List Char) (i : Nat) : Option (List Char) :=
  if matchCI cs i "select".data then
    let r1 := wsRun cs (i + 6)
    (List.range r1).findSome? fun d1 =>
      let k1 := r1 - d1
      (List.range (cs.length + 1)).findSome? fun g =>
        if whereAfterWs cs (i + 6 + k1 + g) then
          some ((cs.drop (i + 6 + k1)).take g)
        else none
  else none

/-- `re.search(r'SELECT\s+(.*?)\s+WHERE', q, re.IGNORECASE | re.DOTALL)`:
leftmost start position wins; returns group 1. -/
def searchSelectGroup (cs : List Char) : Option (List Char) :=
  (List.range cs.length).findSome? (selectGroupAt cs)

/-- Worker for `re.findall(r'\?(\w+)', s)`: scan left to right, at each
`?` take the maximal word run; non-overlapping matches. The fuel
argument (instantiated with the list length) only makes the recursion
structural; it never runs out. -/
def findallGo : Nat → List Char → List String
  | _, [] => []
  | 0, _ => []
  | fuel + 1, c :: rest =>
    if c == '?' then
      let w := rest.takeWhile pyIsWord
      if w.isEmpty then findallGo fuel rest
      else String.mk w :: findallGo fuel (rest.drop w.length)
    else findallGo fuel rest

/-- `re.findall(r'\?(\w+)', s)`. -/
def findall_vars (cs : List Char) : List String :=
  findallGo cs.length cs

/-- Pattern `\?VAR\s+wdt:` (case-insensitive search). Whitespace and the
following literal are disjoint character classes, so the greedy `\s+`
must consume the whole run. -/
def entityPattern1 (v : String) (cs : List Char) : Bool :=
  (List.range cs.length).any fun i =>
    matchCI cs i ('?' :: v.data) &&
    (let j := i + 1 + v.length
     let r := wsRun cs j
     decide (1 ≤ r) && matchCI cs (j + r) "wdt:".data)

/-- Pattern `wdt:\w+\s+\?VAR` (case-insensitive search). -/
def entityPattern2 (v : String) (cs : List Char) : Bool :=
  (List.range cs.length).any fun i =>
    matchCI cs i "wdt:".data &&
    (let j := i + 4
     let rw := wordRun cs j
     decide (1 ≤ rw) &&
     (let k := j + rw
      let rs := wsRun cs k
      decide (1 ≤ rs) && matchCI cs (k + rs) ('?' :: v.data)))

/-- Pattern `\?VAR\s+rdfs:label` (case-insensitive search). -/
def entityPattern3 (v : String) (cs : List Char) : Bool :=
  (List.range cs.length).any fun i =>
    matchCI cs i ('?' :: v.data) &&
    (let j := i + 1 + v.length
     let r := wsRun cs j
     decide (1 ≤ r) && matchCI cs (j + r) "rdfs:label".data)

/-- Pattern `wd:Q\d+\s+wdt:\w+\s+\?VAR` (case-insensitive search). -/
def entityPattern4 (v : String) (cs : List Char) : Bool :=
  (List.range cs.length).any fun i =>
    matchCI cs i "wd:q".data &&
    (let j := i + 4
     let rd := digitRun cs j
     decide (1 ≤ rd) &&
     (let k := j + rd
      let r1 := wsRun cs k
      decide (1 ≤ r1) && matchCI cs (k + r1) "wdt:".data &&
      (let m := k + r1 + 4
       let rw := wordRun cs m
       decide (1 ≤ rw) &&
       (let p := m + rw
        let r2 := wsRun cs p
        decide (1 ≤ r2) && matchCI cs (p + r2) ('?' :: v.data)))))

/-- Substring containment (Python `in` on strings). -/
def strContains (hay : List Char) (needle : List Char) : Bool :=
  (List.range (hay.length + 1)).any fun i =>
    (hay.drop i).take needle.length == needle

/-- The fixed vocabulary of entity-suggestive variable names
(`data_service.py` line 67). -/
def entity_var_names : List String :=
  ["entity", "item", "property", "subject", "object"]

/-- `WikidataDataService._is_entity_variable` (`data_service.py`
lines 42-71): four regex patterns over the full query text, then the
name-vocabulary substring heuristic. -/
def is_entity_variable (variable_name : String) (query : String) : Bool :=
  let cs := query.data
  entityPattern1 variable_name cs ||
  entityPattern2 variable_name cs ||
  entityPattern3 variable_name cs ||
  entityPattern4 variable_name cs ||
  entity_var_names.any fun n =>
    strContains (variable_name.data.map Char.toLower) n.data

/-- The synthesized per-variable label block (`data_service.py`
lines 107-114), byte-for-byte including indentation. -/
def label_condition (v : String) : String :=
  "\n            OPTIONAL \x7b\n                BIND(IF(ISIRI(?" ++ v ++
  "), ?" ++ v ++ ", ?unbound) AS ?" ++ v ++
  "_entity)\n                SERVICE wikibase:label \x7b \n                    bd:serviceParam wikibase:language \"[AUTO_LANGUAGE],en\".\n                    ?" ++
  v ++ "_entity rdfs:label ?" ++ v ++
  "Label .\n                \x7d\n            \x7d"

/-- Python `s.endswith('}')`. -/
def endsWithBrace (s : String) : Bool :=
  s.data.getLast? == some (Char.ofNat 125)

/-- Python `sep.join(parts)`. -/
def joinSep (sep : String) : List String → String
  | [] => ""
  | [x] => x
  | x :: y :: xs => x ++ sep ++ joinSep sep (y :: xs)

/-- `WikidataDataService._enhance_query_with_labels` (`data_service.py`
lines 73-124). -/
def enhance_query_with_labels (base_query : String) : String :=
  match searchSelectGroup base_query.data with
  | none => base_query
  | some select_vars =>
    let vars := findall_vars select_vars
    if vars.isEmpty then base_query
    else
      let entity_variables :=
        vars.filter (fun v => is_entity_variable v base_query)
      if entity_variables.isEmpty then base_query
      else
        let enhanced := pyRstrip base_query
        if endsWithBrace enhanced then
          String.mk enhanced.data.dropLast ++
            joinSep "\n" (entity_variables.map label_condition) ++
            "\n\x7d"
        else enhanced

/-- The entity-classified projected variables of a query (the
`entity_variables` local of `_enhance_query_with_labels`). -/
def entity_variables_of (q : String) : List String :=
  match searchSelectGroup q.data with
  | none => []
  | some sv => (findall_vars sv).filter (fun v => is_entity_variable v q)

/-! ## SHA-256 and key derivation

`generate_cache_key` (`explorer/dal/cache_manager.py` lines 126-132) calls
`hashlib.sha256(...).hexdigest()`. SHA-256 (FIPS 180-4) is embedded here
over `Nat` with explicit reduction modulo `2 ^ 32`. -/

/-- Reduce modulo `2 ^ 32`. -/
def w32 (x : Nat) : Nat := x % 4294967296

/-- 32-bit bitwise complement. -/
def not32 (x : Nat) : Nat := 4294967295 - w32 x

/-- 32-bit rotate right by `n`. -/
def rotr32 (n x : Nat) : Nat := w32 ((x >>> n) ||| (x <<< (32 - n)))

/-- SHA-256 `Ch`. -/
def sha256Ch (x y z : Nat) : Nat := (x &&& y) ^^^ (not32 x &&& z)

/-- SHA-256 `Maj`. -/
def sha256Maj (x y z : Nat) : Nat := (x &&& y) ^^^ (x &&& z) ^^^ (y &&& z)

/-- SHA-256 `Σ0`. -/
def bigSigma0 (x : Nat) : Nat := rotr32 2 x ^^^ rotr32 13 x ^^^ rotr32 22 x

/-- SHA-256 `Σ1`. -/
def bigSigma1 (x : Nat) : Nat := rotr32 6 x ^^^ rotr32 11 x ^^^ rotr32 25 x

/-- SHA-256 `σ0`. -/
def smallSigma0 (x : Nat) : Nat := rotr32 7 x ^^^ rotr32 18 x ^^^ (x >>> 3)

/-- SHA-256 `σ1`. -/
def smallSigma1 (x : Nat) : Nat := rotr32 17 x ^^^ rotr32 19 x ^^^ (x >>> 10)

/-- The 64 SHA-256 round constants. -/
def sha256K : List Nat :=
  [1116352408, 1899447441, 3049323471, 3921009573,
   961987163, 1508970993, 2453635748, 2870763221,
   3624381080, 310598401, 607225278, 1426881987,
   1925078388, 2162078206, 2614888103, 3248222580,
   3835390401, 4022224774, 264347078, 604807628,
   770255983, 1249150122, 1555081692, 1996064986,
   2554220882, 2821834349, 2952996808, 3210313671,
   3336571891, 3584528711, 113926993, 338241895,
   666307205, 773529912, 1294757372, 1396182291,
   1695183700, 1986661051, 2177026350, 2456956037,
   2730485921, 2820302411, 3259730800, 3345764771,
   3516065817, 3600352804, 4094571909, 275423344,
   430227734, 506948616, 659060556, 883997877,
   958139571, 1322822218, 1537002063, 1747873779,
   1955562222, 2024104815, 2227730452, 2361852424,
   2428436474, 2756734187, 3204031479, 3329325298]

/-- SHA-256 initial hash value. -/
def sha256H0 : List Nat :=
  [1779033703, 3144134277, 1013904242, 2773480762,
   1359893119, 2600822924, 528734635, 1541459225]

/-- Big-endian 8-byte encoding of `n`. -/
def be64 (n : Nat) : List Nat :=
  [(n >>> 56) &&& 255, (n >>> 48) &&& 255, (n >>> 40) &&& 255,
   (n >>> 32) &&& 255, (n >>> 24) &&& 255, (n >>> 16) &&& 255,
   (n >>> 8) &&& 255, n &&& 255]

/-- SHA-256 message padding: append `0x80`, zero bytes up to 56 mod 64,
then the bit length as 8 big-endian bytes. -/
def sha256Pad (m : List Nat) : List Nat :=
  m ++ (128 :: List.replicate ((119 - m.length % 64) % 64) 0) ++ be64 (8 * m.length)

/-- Group bytes into big-endian 32-bit words. -/
def bytesToWords : List Nat → List Nat
  | a :: b :: c :: d :: rest =>
    (a * 16777216 + b * 65536 + c * 256 + d) :: bytesToWords rest
  | _ => []

/-- Split a word list into 16-word blocks. -/
def words16 : List Nat → List (List Nat)
  | [] => []
  | a01 :: a02 :: a03 :: a04 :: a05 :: a06 :: a07 :: a08 ::
    a09 :: a10 :: a11 :: a12 :: a13 :: a14 :: a15 :: a16 :: rest =>
    [a01, a02, a03, a04, a05, a06, a07, a08,
     a09, a10, a11, a12, a13, a14, a15, a16] :: words16 rest
  | other => [other]

/-- Extend a 16-word block to the 64-word message schedule. -/
def sha256Schedule (ws : List Nat) : List Nat :=
  (List.range 48).foldl
    (fun W i =>
      W ++ [w32 (smallSigma1 (W.getD (i + 14) 0) + W.getD (i + 9) 0 +
                 smallSigma0 (W.getD (i + 1) 0) + W.getD i 0)])
    ws

/-- One SHA-256 round. -/
def sha256Round (st : Nat × Nat × Nat × Nat × Nat × Nat × Nat × Nat)
    (kw : Nat × Nat) : Nat × Nat × Nat × Nat × Nat × Nat × Nat × Nat :=
  match st, kw with
  | (a, b, c, d, e, f, g, h), (k, w) =>
    let t1 := w32 (h + bigSigma1 e + sha256Ch e f g + k + w)
    let t2 := w32 (bigSigma0 a + sha256Maj a b c)
    (w32 (t1 + t2), a, b, c, w32 (d + t1), e, f, g)

/-- SHA-256 block compression. -/
def sha256Compress (h : List Nat) (block : List Nat) : List Nat :=
  let W := sha256Schedule block
  let init := (h.getD 0 0, h.getD 1 0, h.getD 2 0, h.getD 3 0,
               h.getD 4 0, h.getD 5 0, h.getD 6 0, h.getD 7 0)
  let fin := (sha256K.zip W).foldl sha256Round init
  [w32 (h.getD 0 0 + fin.1), w32 (h.getD 1 0 + fin.2.1),
   w32 (h.getD 2 0 + fin.2.2.1), w32 (h.getD 3 0 + fin.2.2.2.1),
   w32 (h.getD 4 0 + fin.2.2.2.2.1), w32 (h.getD 5 0 + fin.2.2.2.2.2.1),
   w32 (h.getD 6 0 + fin.2.2.2.2.2.2.1), w32 (h.getD 7 0 + fin.2.2.2.2.2.2.2)]

/-- SHA-256 of a byte list: the eight 32-bit words of the digest. -/
def sha256Words (m : List Nat) : List Nat :=
  (words16 (bytesToWords (sha256Pad m))).foldl sha256Compress sha256H0

/-- Lower-case hex digit. -/
def hexChar (n : Nat) : Char :=
  if n < 10 then Char.ofNat (48 + n) else Char.ofNat (87 + n)

/-- Eight lower-case hex digits of a 32-bit word. -/
def word32Hex (x : Nat) : List Char :=
  [hexChar ((x >>> 28) &&& 15), hexChar ((x >>> 24) &&& 15),
   hexChar ((x >>> 20) &&& 15), hexChar ((x >>> 16) &&& 15),
   hexChar ((x >>> 12) &&& 15), hexChar ((x >>> 8) &&& 15),
   hexChar ((x >>> 4) &&& 15), hexChar (x &&& 15)]

/-- `hashlib.sha256(bytes).hexdigest()`: 64 lower-case hex characters. -/
def sha256HexChars (m : List Nat) : List Char :=
  (sha256Words m).foldr (fun wd acc => word32Hex wd ++ acc) []

/-- UTF-8 encoding of one character. -/
def utf8EncodeChar (c : Char) : List Nat :=
  let n := c.toNat
  if n < 128 then [n]
  else if n < 2048 then [192 ||| (n >>> 6), 128 ||| (n &&& 63)]
  else if n < 65536 then
    [224 ||| (n >>> 12), 128 ||| ((n >>> 6) &&& 63), 128 ||| (n &&& 63)]
  else
    [240 ||| (n >>> 18), 128 ||| ((n >>> 12) &&& 63),
     128 ||| ((n >>> 6) &&& 63), 128 ||| (n &&& 63)]

/-- Python `s.encode('utf-8')`. -/
def utf8Encode (s : String) : List Nat :=
  s.data.foldr (fun c acc => utf8EncodeChar c ++ acc) []

/-- `generate_cache_key` (`explorer/dal/cache_manager.py` lines 126-132):
strip, collapse whitespace runs, lower-case, SHA-256 over the UTF-8
bytes, and return `sparql_` followed by the first 16 hex characters. -/
def generate_cache_key (sparql_query : String) : String :=
  "sparql_" ++
    String.mk ((sha256HexChars (utf8Encode (normalized_query sparql_query))).take 16)

/-! ## Cache stores

Two variants exist in the source:
  - `CacheManager` in `explorer/dal/cache_manager.py` (used by
    `WikidataDataService`); its `get_result`/`set_result` bodies are
    elided from the source file (lines 112-113 say they are "assumed to
    be in your local file"), so they are modelled from the spec below.
  - The legacy `MongoCacheManager` in `explorer/cache_manager.py`, whose
    `get`/`set` are present and embedded directly.

A payload is the opaque structured result dictionary; Python truthiness
of a dict is emptiness. Timestamps are abstract `Nat` instants. -/

abbrev Payload := List (String × String)

/-- Python truthiness of a result dictionary. -/
def pyTruthy (p : Payload) : Bool := !p.isEmpty

/-- A stored cache document: `{_id: key, data: payload, created_at: t}`. -/
structure CacheDoc where
  data : Payload
  created_at : Nat
deriving DecidableEq

/-- Point lookup by `_id` in a document list (`find_one({"_id": key})`). -/
def find_one (docs : List (String × CacheDoc)) (k : String) : Option CacheDoc :=
  (docs.find? (fun p => p.1 == k)).map (fun p => p.2)

/-- Upsert by `_id` (`replace_one({"_id": key}, doc, upsert=True)`). -/
def replace_one_upsert (docs : List (String × CacheDoc)) (k : String)
    (d : CacheDoc) : List (String × CacheDoc) :=
  (k, d) :: docs.filter (fun p => !(p.1 == k))

/-- State of the DAL `CacheManager`: reachability of the backing medium,
the stored documents, and the configured TTL. -/
structure CacheManagerState where
  reachable : Bool
  docs : List (String × CacheDoc)
  ttl_seconds : Nat
deriving DecidableEq

/-- Number of stored entries. -/
def CacheManagerState.entry_count (c : CacheManagerState) : Nat :=
  c.docs.length

/-- Modelled from the spec: `CacheManager.get_result`, whose body is
elided from `explorer/dal/cache_manager.py` (lines 112-113). Spec §4.2:
return the stored payload if present and unexpired (`now - created_at <
ttl`), else nothing; fail-open — an unreachable backing medium is
treated as a miss. -/
def CacheManagerState.get_result (c : CacheManagerState) (k : String)
    (now : Nat) : Option Payload :=
  if c.reachable then
    match find_one c.docs k with
    | some d => if now - d.created_at < c.ttl_seconds then some d.data else none
    | none => none
  else none

/-- Modelled from the spec: `CacheManager.set_result`, whose body is
elided from `explorer/dal/cache_manager.py` (lines 112-113). Spec §4.2:
upsert the entry, stamping `created_at` with the current time, replacing
any prior value unconditionally; fail-open — an unreachable backing
medium skips the write. -/
def CacheManagerState.set_result (c : CacheManagerState) (k : String)
    (v : Payload) (now : Nat) : CacheManagerState :=
  if c.reachable then
    { c with docs := replace_one_upsert c.docs k ⟨v, now⟩ }
  else c

namespace MongoCacheManager

/-- `MongoCacheManager.get` (`explorer/cache_manager.py` lines 54-60):
`find_one` by key and return the document's `data` field. No freshness
check is performed by the reader. -/
def get (docs : List (String × CacheDoc)) (key : String) : Option Payload :=
  (find_one docs key).map (fun d => d.data)

/-- `MongoCacheManager.set` (`explorer/cache_manager.py` lines 62-77):
upsert `{_id, data, created_at: now}`. -/
def set (docs : List (String × CacheDoc)) (key : String) (value : Payload)
    (now : Nat) : List (String × CacheDoc) :=
  replace_one_upsert docs key ⟨value, now⟩

end MongoCacheManager

/-- MongoDB's background TTL monitor: asynchronously deletes documents
whose age has reached the index's `expireAfterSeconds`. One full pass is
modelled as a filter keeping only fresh documents. -/
def mongo_ttl_purge (ttl now : Nat) (docs : List (String × CacheDoc)) :
    List (String × CacheDoc) :=
  docs.filter (fun p => now - p.2.created_at < ttl)

/-! ## TTL eviction-policy reconciliation at construction -/

/-- Persisted index configuration of the cache collection: index name ↦
`expireAfterSeconds` (which a persisted index may lack, hence `Option`). -/
abbrev IndexConfig := List (String × Option Nat)

/-- Lookup an index's `expireAfterSeconds` by index name. -/
def lookup_index (indexes : IndexConfig) (name : String) : Option (Option Nat) :=
  (indexes.find? (fun p => p.1 == name)).map (fun p => p.2)

/-- `CacheManager._setup_ttl_index` (`explorer/dal/cache_manager.py`
lines 83-110): if `cache_ttl_index` exists with a different
`expireAfterSeconds` than the configured TTL, drop it and recreate it
with the configured value; if it matches, keep it; if absent, create it. -/
def setup_ttl_index (indexes : IndexConfig) (ttl_seconds : Nat) : IndexConfig :=
  match indexes.find? (fun p => p.1 == "cache_ttl_index") with
  | some p =>
    if p.2 ≠ some ttl_seconds then
      indexes.filter (fun q => !(q.1 == "cache_ttl_index")) ++
        [("cache_ttl_index", some ttl_seconds)]
    else indexes
  | none => indexes ++ [("cache_ttl_index", some ttl_seconds)]

/-- `MongoCacheManager._ensure_ttl_index` (`explorer/cache_manager.py`
lines 33-51): create `explorer_ttl_index` only when no index of that
name exists; an existing index is kept without comparing its
`expireAfterSeconds` to the configured TTL. -/
def ensure_ttl_index (indexes : IndexConfig) (ttl_seconds : Nat) : IndexConfig :=
  if (indexes.map (fun p => p.1)).contains "explorer_ttl_index" then indexes
  else indexes ++ [("explorer_ttl_index", some ttl_seconds)]

/-! ## The query executor

`WikidataDataService._execute_sparql_query` (`data_service.py` lines
126-187) and `execute_custom_query` (lines 305-326). The external SPARQL
endpoint is an oracle `String → EndpointBehavior` describing, per query,
what `self.sparql.query().convert()` does. -/

/-- Behavior of the external endpoint call for one query. -/
inductive EndpointBehavior where
  | success (result : Payload)
  | timeout
  | connectionError (msg : String)
  | endpointInternalError (msg : String)
  | sparqlWrapperError (msg : String)
  | requestError (msg : String)
  | otherError (msg : String)
deriving DecidableEq

/-- What `_execute_sparql_query` does for the caller: a returned result
dictionary, or a propagated `SPARQLWrapperException` /
`RequestException`. -/
inductive ExecOutcome where
  | ok (result : Payload)
  | sparqlException (msg : String)
  | requestException (msg : String)
deriving DecidableEq

/-- `True` for the exceptional outcomes (`Timeout`, `EndpointError`,
`NetworkError` all surface as one of these two exception types). -/
def ExecOutcome.isFailure : ExecOutcome → Bool
  | .ok _ => false
  | .sparqlException _ => true
  | .requestException _ => true

/-- The cache-consulting prologue of `_execute_sparql_query` (lines
144-149): with a derived key, a stored payload is returned early only if
present, unexpired and truthy (`if cached_result:`). -/
def cache_hit (cache : CacheManagerState) (cache_key : Option String)
    (now : Nat) : Option Payload :=
  match cache_key with
  | some k =>
    match cache.get_result k now with
    | some r => if pyTruthy r then some r else none
    | none => none
  | none => none

/-- `WikidataDataService._execute_sparql_query` (`data_service.py` lines
126-187): derive the key when caching is on, return a truthy cached
payload early, otherwise dispatch to the endpoint, cache a truthy
successful result, and map each exception per the `try`/`except` chain
(note a timeout's `QueryTimeoutException` is caught by the generic
`except Exception` arm and re-raised as a `SPARQLWrapperException`). -/
def execute_sparql_query (cache : CacheManagerState)
    (endpoint : String → EndpointBehavior) (query : String)
    (use_cache : Bool) (now : Nat) : ExecOutcome × CacheManagerState :=
  let cache_key : Option String :=
    if use_cache then some (generate_cache_key query) else none
  match cache_hit cache cache_key now with
  | some cached_result => (.ok cached_result, cache)
  | none =>
    match endpoint query with
    | .success result =>
      let cache' :=
        match use_cache, cache_key, pyTruthy result with
        | true, some k, true => cache.set_result k result now
        | _, _, _ => cache
      (.ok result, cache')
    | .timeout =>
      (.sparqlException "Unexpected error: SPARQL query exceeded 20-second timeout", cache)
    | .connectionError m =>
      (.requestException ("Connection error: " ++ m), cache)
    | .endpointInternalError m =>
      (.sparqlException ("Wikidata server error: " ++ m), cache)
    | .sparqlWrapperError m => (.sparqlException m, cache)
    | .requestError m => (.requestException m, cache)
    | .otherError m => (.sparqlException ("Unexpected error: " ++ m), cache)

/-- The direct, cache-free meaning of one endpoint dispatch: what the
`try`/`except` chain of `_execute_sparql_query` turns each endpoint
behavior into, with no cache interaction. -/
def dispatchOutcome : EndpointBehavior → ExecOutcome
  | .success r => .ok r
  | .timeout =>
    .sparqlException "Unexpected error: SPARQL query exceeded 20-second timeout"
  | .connectionError m => .requestException ("Connection error: " ++ m)
  | .endpointInternalError m => .sparqlException ("Wikidata server error: " ++ m)
  | .sparqlWrapperError m => .sparqlException m
  | .requestError m => .requestException m
  | .otherError m => .sparqlException ("Unexpected error: " ++ m)

/-- `WikidataDataService.execute_custom_query` (`data_service.py` lines
305-326): enhance the query first, then execute it with caching on. -/
def execute_custom_query (cache : CacheManagerState)
    (endpoint : String → EndpointBehavior) (sparql_query : String)
    (now : Nat) : ExecOutcome × CacheManagerState :=
  execute_sparql_query cache endpoint (enhance_query_with_labels sparql_query)
    true now

/-! ## Helper lemmas -/

theorem sha256Compress_length (h b : List Nat) : (sha256Compress h b).length = 8 := rfl

theorem foldl_sha256Compress_length :
    ∀ (bs : List (List Nat)) (h : List Nat), h.length = 8 →
      (bs.foldl sha256Compress h).length = 8
  | [], _, hh => hh
  | b :: bs, h, _ =>
    foldl_sha256Compress_length bs (sha256Compress h b) (sha256Compress_length h b)

theorem sha256Words_length (m : List Nat) : (sha256Words m).length = 8 :=
  foldl_sha256Compress_length _ sha256H0 rfl

theorem foldr_word32Hex_length (ws : List Nat) :
    (ws.foldr (fun wd acc => word32Hex wd ++ acc) []).length = 8 * ws.length := by
  induction ws with
  | nil => rfl
  | cons w ws ih =>
    have h8 : (word32Hex w).length = 8 := rfl
    simp only [List.foldr_cons, List.length_append, ih, List.length_cons]
    omega

theorem sha256HexChars_length (m : List Nat) : (sha256HexChars m).length = 64 := by
  unfold sha256HexChars
  rw [foldr_word32Hex_length, sha256Words_length]

theorem hexChar_mem_alphabet (n : Nat) (h : n ≤ 15) :
    hexChar n ∈ "0123456789abcdef".data := by
  interval_cases n <;> decide

theorem word32Hex_mem_alphabet (x : Nat) :
    ∀ c ∈ word32Hex x, c ∈ "0123456789abcdef".data := by
  intro c hc
  simp only [word32Hex, List.mem_cons, List.not_mem_nil, or_false] at hc
  rcases hc with h | h | h | h | h | h | h | h <;>
    (subst h; exact hexChar_mem_alphabet _ Nat.and_le_right)

theorem foldr_word32Hex_mem (ws : List Nat) (c : Char)
    (hc : c ∈ ws.foldr (fun wd acc => word32Hex wd ++ acc) []) :
    c ∈ "0123456789abcdef".data := by
  induction ws with
  | nil => simp at hc
  | cons w ws ih =>
    simp only [List.foldr_cons, List.mem_append] at hc
    rcases hc with h | h
    · exact word32Hex_mem_alphabet w c h
    · exact ih h

/-! ## Claim theorems -/

/-- C6: the key deriver is total on arbitrary strings; it returns
`sparql_` followed by 16 hex characters of the 256-bit digest of the
normalized (stripped, whitespace-collapsed, lower-cased) query, so any
two queries with equal normalizations derive equal keys. -/
theorem generate_cache_key_total_and_deterministic :
    (∀ q1 q2 : String, normalized_query q1 = normalized_query q2 →
      generate_cache_key q1 = generate_cache_key q2) ∧
    (∀ q : String, ∃ hex : List Char,
      generate_cache_key q = "sparql_" ++ String.mk hex ∧
      hex.length = 16 ∧ ∀ c ∈ hex, c ∈ "0123456789abcdef".data) := by
  constructor
  · intro q1 q2 h
    unfold generate_cache_key
    rw [h]
  · intro q
    refine ⟨(sha256HexChars (utf8Encode (normalized_query q))).take 16, rfl, ?_, ?_⟩
    · rw [List.length_take, sha256HexChars_length]
      decide
    · intro c hc
      exact foldr_word32Hex_mem _ c (List.take_subset _ _ hc)

/-- C10: executing with caching disabled neither reads nor writes the
cache: the cache state is returned untouched and the outcome is exactly
the classification of the endpoint's behavior. -/
theorem execute_without_cache_is_pure_dispatch
    (cache : CacheManagerState) (endpoint : String → EndpointBehavior)
    (query : String) (now : Nat) :
    execute_sparql_query cache endpoint query false now =
      (dispatchOutcome (endpoint query), cache) := by
  unfold execute_sparql_query cache_hit
  cases hq : endpoint query
  all_goals rfl

/-- C2: when the backing medium is unreachable at call time, a get is a
miss and a set is skipped; execution continues against the live endpoint
and its result is returned, with no cache-layer error propagated. -/
theorem cache_unreachable_fail_open
    (cache : CacheManagerState) (endpoint : String → EndpointBehavior)
    (query : String) (use_cache : Bool) (now : Nat)
    (h : cache.reachable = false) :
    execute_sparql_query cache endpoint query use_cache now =
      (dispatchOutcome (endpoint query), cache) := by
  unfold execute_sparql_query cache_hit CacheManagerState.get_result
    CacheManagerState.set_result
  cases use_cache <;> cases hq : endpoint query <;>
    simp [h, dispatchOutcome] <;>
    (cases hpt : pyTruthy _ <;> simp [h])

/-- C4: an execution whose outcome is exceptional (timeouts, endpoint
errors and network errors all surface as exceptions) performs no cache
write: the cache state is unchanged, its entry count is unchanged, and a
key absent before the execution is still absent after it. -/
theorem failed_execution_leaves_cache_unchanged
    (cache cache' : CacheManagerState) (endpoint : String → EndpointBehavior)
    (query : String) (use_cache : Bool) (now : Nat) (out : ExecOutcome)
    (h : execute_sparql_query cache endpoint query use_cache now = (out, cache'))
    (hfail : out.isFailure = true) :
    cache' = cache ∧ cache'.entry_count = cache.entry_count ∧
      ∀ k n, cache.get_result k n = none → cache'.get_result k n = none := by
  have hc : cache' = cache := by
    simp only [execute_sparql_query] at h
    split at h
    · injection h with h1 h2
      rw [← h1] at hfail
      simp [ExecOutcome.isFailure] at hfail
    · split at h
      case _ r heq =>
        injection h with h1 h2
        rw [← h1] at hfail
        simp [ExecOutcome.isFailure] at hfail
      all_goals (injection h with h1 h2; exact h2.symm)
  subst hc
  exact ⟨rfl, rfl, fun _ _ hk => hk⟩

/-- C5: a cache-enabled execution that misses and receives a well-formed
(non-empty) result from the endpoint writes that raw result to the cache
under the key derived from the executed query string, returns the same
result, and a subsequent get on that key finds it. -/
theorem success_writes_cache_and_returns
    (cache : CacheManagerState) (endpoint : String → EndpointBehavior)
    (query : String) (now : Nat) (r : Payload)
    (hmiss : cache_hit cache (some (generate_cache_key query)) now = none)
    (hend : endpoint query = .success r)
    (htruthy : pyTruthy r = true)
    (hreach : cache.reachable = true)
    (httl : 0 < cache.ttl_seconds) :
    execute_sparql_query cache endpoint query true now =
      (.ok r, cache.set_result (generate_cache_key query) r now) ∧
    (cache.set_result (generate_cache_key query) r now).get_result
      (generate_cache_key query) now = some r := by
  constructor
  · simp only [execute_sparql_query]
    simp [hmiss, hend, htruthy]
  · unfold CacheManagerState.set_result CacheManagerState.get_result
    simp [hreach, find_one, replace_one_upsert, httl]

/-- C1 (amended): `execute_custom_query` rewrites first and derives the
cache key from the enhanced query; when that key has an unexpired truthy
entry, the stored payload is returned as-is with the cache untouched and
no dependence on the endpoint. -/
theorem execute_custom_query_enhanced_key_hit
    (cache : CacheManagerState) (endpoint : String → EndpointBehavior)
    (sparql_query : String) (now : Nat) (v : Payload)
    (hhit : cache_hit cache
      (some (generate_cache_key (enhance_query_with_labels sparql_query))) now =
      some v) :
    execute_custom_query cache endpoint sparql_query now = (.ok v, cache) := by
  unfold execute_custom_query execute_sparql_query
  simp only [if_true, hhit]

/-- C3 (amended): the reader `MongoCacheManager.get` performs no age
check, so the freshness invariant holds only through the store's
asynchronous eviction: any document still found after a purge pass is
younger than the TTL. -/
theorem mongo_get_fresh_after_purge
    (docs : List (String × CacheDoc)) (ttl now : Nat) (k : String) (d : CacheDoc)
    (h : find_one (mongo_ttl_purge ttl now docs) k = some d) :
    now - d.created_at < ttl := by
  unfold find_one mongo_ttl_purge at h
  cases hf : (docs.filter fun p => now - p.2.created_at < ttl).find?
      (fun p => p.1 == k) with
  | none => rw [hf] at h; simp at h
  | some p =>
    rw [hf] at h
    simp at h
    have hm := List.mem_of_find?_eq_some hf
    have hp := (List.mem_filter.mp hm).2
    rw [← h]
    exact of_decide_eq_true hp

/-- C9 (amended): the DAL `CacheManager` reconciles the persisted TTL
configuration at startup — after `_setup_ttl_index` the `cache_ttl_index`
always carries exactly the configured TTL (recreated on mismatch,
verified on match, created when absent) — while the legacy
`MongoCacheManager._ensure_ttl_index` leaves any existing index of that
name entirely unchanged. -/
theorem ttl_index_reconciliation :
    (∀ (indexes : IndexConfig) (ttl : Nat),
      lookup_index (setup_ttl_index indexes ttl) "cache_ttl_index" =
        some (some ttl)) ∧
    (∀ (indexes : IndexConfig) (ttl : Nat),
      (indexes.map (fun p => p.1)).contains "explorer_ttl_index" = true →
      ensure_ttl_index indexes ttl = indexes) := by
  constructor
  · intro indexes ttl
    cases hf : indexes.find? (fun p => p.1 == "cache_ttl_index") with
    | some p =>
      by_cases hp : p.2 = some ttl
      · simp only [setup_ttl_index, lookup_index, hf]
        rw [if_neg (by simp [hp]), hf]
        simp [hp]
      · simp only [setup_ttl_index, lookup_index, hf]
        rw [if_pos hp, List.find?_append]
        have hnone : (indexes.filter fun q => !(q.1 == "cache_ttl_index")).find?
            (fun p => p.1 == "cache_ttl_index") = none := by
          rw [List.find?_eq_none]
          intro x hx
          have := (List.mem_filter.mp hx).2
          simp_all
        rw [hnone]
        simp
    | none =>
      simp only [setup_ttl_index, lookup_index, hf]
      rw [List.find?_append, hf]
      simp
  · intro indexes ttl h
    simp only [ensure_ttl_index, h, if_true]

/-- C7 (amended): the enhancer is byte-identical on its no-op cases (no
recognizable projection clause, no projected variables, or no
entity-classified variables) and never fails; when entity variables
exist but the final closing brace cannot be located, it returns the
query unchanged except that trailing whitespace is stripped. -/
theorem enhance_noop_cases :
    (∀ q : String, entity_variables_of q = [] → enhance_query_with_labels q = q) ∧
    (∀ q : String, endsWithBrace (pyRstrip q) = false →
      enhance_query_with_labels q = q ∨
      enhance_query_with_labels q = pyRstrip q) := by
  constructor
  · intro q h
    cases hsel : searchSelectGroup q.data with
    | none => simp [enhance_query_with_labels, hsel]
    | some sv =>
      simp only [entity_variables_of, hsel] at h
      cases hv : (findall_vars sv).isEmpty with
      | true => simp [enhance_query_with_labels, hsel, hv]
      | false =>
        have he : ((findall_vars sv).filter fun v =>
            is_entity_variable v q).isEmpty = true := by
          rw [h]
          rfl
        simp [enhance_query_with_labels, hsel, hv, he]
  · intro q hb
    cases hsel : searchSelectGroup q.data with
    | none => left; simp [enhance_query_with_labels, hsel]
    | some sv =>
      cases hv : (findall_vars sv).isEmpty with
      | true => left; simp [enhance_query_with_labels, hsel, hv]
      | false =>
        cases he : ((findall_vars sv).filter fun v =>
            is_entity_variable v q).isEmpty with
        | true => left; simp [enhance_query_with_labels, hsel, hv, he]
        | false => right; simp [enhance_query_with_labels, hsel, hv, he, hb]

/-- C8: a query whose projection clause contains `x` exactly once, where
`x` occurs as the object of a direct-property triple and the rstripped
query ends with a closing brace, is enhanced by inserting the
synthesized label blocks — exactly one of which is for `x` — immediately
before that final closing brace. -/
theorem enhance_injects_one_block_for_object_var
    (q : String) (sv : List Char) (x : String)
    (hsel : searchSelectGroup q.data = some sv)
    (hcount : (findall_vars sv).count x = 1)
    (hpat : entityPattern2 x q.data = true)
    (hbrace : endsWithBrace (pyRstrip q) = true) :
    (entity_variables_of q).count x = 1 ∧
    enhance_query_with_labels q =
      String.mk (pyRstrip q).data.dropLast ++
        joinSep "\n" ((entity_variables_of q).map label_condition) ++
        "\n\x7d" := by
  have hent : is_entity_variable x q = true := by
    simp only [is_entity_variable]
    rw [hpat]
    simp
  have hcf : ((findall_vars sv).filter fun v =>
      is_entity_variable v q).count x = 1 := by
    rw [@List.count_filter String _ _ (fun v => is_entity_variable v q) x
      (findall_vars sv) hent]
    exact hcount
  have hxv : x ∈ findall_vars sv :=
    List.count_pos_iff.mp (by rw [hcount]; omega)
  have hvne : (findall_vars sv).isEmpty = false := by
    cases hl : findall_vars sv with
    | nil => rw [hl] at hxv; simp at hxv
    | cons a l => rfl
  have hxe : x ∈ (findall_vars sv).filter fun v => is_entity_variable v q :=
    List.count_pos_iff.mp (by rw [hcf]; omega)
  have hene : ((findall_vars sv).filter fun v =>
      is_entity_variable v q).isEmpty = false := by
    cases hl : (findall_vars sv).filter fun v => is_entity_variable v q with
    | nil => rw [hl] at hxe; simp at hxe
    | cons a l => rfl
  constructor
  · simp only [entity_variables_of, hsel]
    exact hcf
  · simp [enhance_query_with_labels, entity_variables_of, hsel, hvne, hene, hbrace]

/-! ## Witnesses and counterexamples -/

set_option maxRecDepth 100000

/-- C1 counterexample: with an unexpired entry stored under the key of
the raw query, `execute_custom_query` does not return the stored
payload: it derives its lookup key from the enhanced query, misses, and
returns the endpoint's (different) result — a network call is made. -/
theorem execute_custom_query_raw_key_counterexample :
    CacheManagerState.get_result
      ⟨true, [(generate_cache_key "SELECT ?item WHERE \x7b ?item wdt:P31 wd:Q5 \x7d",
               ⟨[("cached", "1")], 0⟩)], 3600⟩
      (generate_cache_key "SELECT ?item WHERE \x7b ?item wdt:P31 wd:Q5 \x7d") 5 =
      some [("cached", "1")] ∧
    (execute_custom_query
      ⟨true, [(generate_cache_key "SELECT ?item WHERE \x7b ?item wdt:P31 wd:Q5 \x7d",
               ⟨[("cached", "1")], 0⟩)], 3600⟩
      (fun _ => .success [("net", "1")])
      "SELECT ?item WHERE \x7b ?item wdt:P31 wd:Q5 \x7d" 5).1 =
      .ok [("net", "1")] ∧
    ExecOutcome.ok [("net", "1")] ≠ ExecOutcome.ok [("cached", "1")] := by
  refine ⟨?_, ?_, by decide⟩
  · simp [CacheManagerState.get_result, find_one]
  · decide

/-- C1 witness for the amended theorem: an unexpired entry under the key
of the enhanced query is returned unchanged, with the cache untouched,
even against an endpoint that would time out. -/
theorem execute_custom_query_enhanced_key_hit_witness :
    cache_hit
      ⟨true, [(generate_cache_key (enhance_query_with_labels "SELECT 1"),
               ⟨[("cached", "1")], 0⟩)], 3600⟩
      (some (generate_cache_key (enhance_query_with_labels "SELECT 1"))) 5 =
      some [("cached", "1")] ∧
    execute_custom_query
      ⟨true, [(generate_cache_key (enhance_query_with_labels "SELECT 1"),
               ⟨[("cached", "1")], 0⟩)], 3600⟩
      (fun _ => .timeout) "SELECT 1" 5 =
      (.ok [("cached", "1")],
       ⟨true, [(generate_cache_key (enhance_query_with_labels "SELECT 1"),
                ⟨[("cached", "1")], 0⟩)], 3600⟩) :=
  ⟨by simp [cache_hit, CacheManagerState.get_result, find_one, pyTruthy],
   execute_custom_query_enhanced_key_hit _ _ _ _ _
     (by simp [cache_hit, CacheManagerState.get_result, find_one, pyTruthy])⟩

/-- C2 witness: an unreachable cache at call time degrades to a direct
endpoint execution with the cache state untouched. -/
theorem cache_unreachable_fail_open_witness :
    (⟨false, [], 3600⟩ : CacheManagerState).reachable = false ∧
    execute_sparql_query ⟨false, [], 3600⟩
      (fun _ => .success [("head", "vars")]) "SELECT 1" true 0 =
      (.ok [("head", "vars")], ⟨false, [], 3600⟩) :=
  ⟨rfl, cache_unreachable_fail_open ⟨false, [], 3600⟩
    (fun _ => .success [("head", "vars")]) "SELECT 1" true 0 rfl⟩

/-- C3 counterexample: a document older than the TTL that the
asynchronous eviction has not yet purged is still returned by the
reader, violating the reader-visible freshness invariant. -/
theorem mongo_get_expired_counterexample :
    MongoCacheManager.get [("k", ⟨[("a", "1")], 0⟩)] "k" = some [("a", "1")] ∧
    ¬ ((3600 : Nat) - 0 < 3600) := by decide

/-- C3 witness for the amended theorem: after a purge pass at `now = 20`
with TTL 3600, the surviving document is younger than the TTL. -/
theorem mongo_get_fresh_after_purge_witness :
    find_one (mongo_ttl_purge 3600 20 [("k", ⟨[("a", "1")], 10⟩)]) "k" =
      some ⟨[("a", "1")], 10⟩ ∧
    (20 : Nat) - (10 : Nat) < 3600 :=
  ⟨by decide, mongo_get_fresh_after_purge [("k", ⟨[("a", "1")], 10⟩)] 3600 20 "k"
    ⟨[("a", "1")], 10⟩ (by decide)⟩

/-- C4 witness: an execution against an always-timing-out endpoint
yields an exceptional outcome and leaves the cache exactly as it was. -/
theorem failed_execution_witness :
    execute_sparql_query ⟨true, [], 3600⟩ (fun _ => .timeout) "SELECT 1" true 0 =
      (.sparqlException "Unexpected error: SPARQL query exceeded 20-second timeout",
       ⟨true, [], 3600⟩) ∧
    (ExecOutcome.sparqlException
      "Unexpected error: SPARQL query exceeded 20-second timeout").isFailure = true ∧
    ((⟨true, [], 3600⟩ : CacheManagerState) = ⟨true, [], 3600⟩ ∧
     CacheManagerState.entry_count ⟨true, [], 3600⟩ =
       CacheManagerState.entry_count ⟨true, [], 3600⟩ ∧
     ∀ k n, CacheManagerState.get_result ⟨true, [], 3600⟩ k n = none →
       CacheManagerState.get_result ⟨true, [], 3600⟩ k n = none) :=
  ⟨rfl, rfl,
   failed_execution_leaves_cache_unchanged ⟨true, [], 3600⟩ ⟨true, [], 3600⟩
     (fun _ => .timeout) "SELECT 1" true 0
     (.sparqlException "Unexpected error: SPARQL query exceeded 20-second timeout")
     rfl rfl⟩

/-- C5 witness: a miss followed by a truthy endpoint result is written
under the derived key, returned, and found by a subsequent get. -/
theorem success_writes_witness :
    cache_hit ⟨true, [], 3600⟩ (some (generate_cache_key "SELECT 1")) 0 = none ∧
    pyTruthy [("head", "vars")] = true ∧
    (⟨true, [], 3600⟩ : CacheManagerState).reachable = true ∧
    0 < (⟨true, [], 3600⟩ : CacheManagerState).ttl_seconds ∧
    (execute_sparql_query ⟨true, [], 3600⟩
        (fun _ => .success [("head", "vars")]) "SELECT 1" true 0 =
      (.ok [("head", "vars")],
       CacheManagerState.set_result ⟨true, [], 3600⟩
         (generate_cache_key "SELECT 1") [("head", "vars")] 0) ∧
     CacheManagerState.get_result
       (CacheManagerState.set_result ⟨true, [], 3600⟩
         (generate_cache_key "SELECT 1") [("head", "vars")] 0)
       (generate_cache_key "SELECT 1") 0 = some [("head", "vars")]) :=
  ⟨rfl, rfl, rfl, by decide,
   success_writes_cache_and_returns ⟨true, [], 3600⟩
     (fun _ => .success [("head", "vars")]) "SELECT 1" 0 [("head", "vars")]
     rfl rfl rfl rfl (by decide)⟩

/-- C6 witness: the two scenario queries differing only in keyword case
normalize identically and hence derive the same key. -/
theorem generate_cache_key_witness :
    normalized_query "SELECT ?x WHERE \x7b ?x wdt:P31 wd:Q5 \x7d" =
      normalized_query "select ?x where \x7b ?x wdt:P31 wd:Q5 \x7d" ∧
    generate_cache_key "SELECT ?x WHERE \x7b ?x wdt:P31 wd:Q5 \x7d" =
      generate_cache_key "select ?x where \x7b ?x wdt:P31 wd:Q5 \x7d" :=
  ⟨by decide, generate_cache_key_total_and_deterministic.1 _ _ (by decide)⟩

/-- C7 counterexample: on a query with an entity variable but no final
closing brace (an injection point that cannot be located), the enhancer
returns the rstripped query, which is not byte-identical to the input. -/
theorem enhance_malformed_not_identity_counterexample :
    enhance_query_with_labels "SELECT ?item WHERE x " = "SELECT ?item WHERE x" ∧
    "SELECT ?item WHERE x" ≠ "SELECT ?item WHERE x " := by decide

/-- C7 witness for the amended theorem: a no-op case is returned
byte-identical; a brace-less query falls into the rstrip case. -/
theorem enhance_noop_witness :
    (entity_variables_of "ASK \x7b ?x wdt:P31 wd:Q5 \x7d" = [] ∧
     enhance_query_with_labels "ASK \x7b ?x wdt:P31 wd:Q5 \x7d" =
       "ASK \x7b ?x wdt:P31 wd:Q5 \x7d") ∧
    (endsWithBrace (pyRstrip "SELECT ?item WHERE x ") = false ∧
     (enhance_query_with_labels "SELECT ?item WHERE x " =
        "SELECT ?item WHERE x " ∨
      enhance_query_with_labels "SELECT ?item WHERE x " =
        pyRstrip "SELECT ?item WHERE x ")) :=
  ⟨⟨by decide, enhance_noop_cases.1 _ (by decide)⟩,
   ⟨by decide, enhance_noop_cases.2 _ (by decide)⟩⟩

/-- C8 witness: `?country` is projected once and used as the object of a
direct-property triple; exactly one label block for it is inserted
before the final closing brace. -/
theorem enhance_injects_witness :
    (searchSelectGroup
        "SELECT ?country WHERE \x7b wd:Q5 wdt:P17 ?country \x7d".data =
      some "?country".data ∧
     (findall_vars "?country".data).count "country" = 1 ∧
     entityPattern2 "country"
       "SELECT ?country WHERE \x7b wd:Q5 wdt:P17 ?country \x7d".data = true ∧
     endsWithBrace
       (pyRstrip "SELECT ?country WHERE \x7b wd:Q5 wdt:P17 ?country \x7d") = true) ∧
    ((entity_variables_of
        "SELECT ?country WHERE \x7b wd:Q5 wdt:P17 ?country \x7d").count "country" = 1 ∧
     enhance_query_with_labels
        "SELECT ?country WHERE \x7b wd:Q5 wdt:P17 ?country \x7d" =
      String.mk
          (pyRstrip "SELECT ?country WHERE \x7b wd:Q5 wdt:P17 ?country \x7d").data.dropLast ++
        joinSep "\n"
          ((entity_variables_of
            "SELECT ?country WHERE \x7b wd:Q5 wdt:P17 ?country \x7d").map
            label_condition) ++
        "\n\x7d") :=
  ⟨⟨by decide, by decide, by decide, by decide⟩,
   enhance_injects_one_block_for_object_var
     "SELECT ?country WHERE \x7b wd:Q5 wdt:P17 ?country \x7d"
     "?country".data "country"
     (by decide) (by decide) (by decide) (by decide)⟩

/-- C9 counterexample: `MongoCacheManager._ensure_ttl_index` finds an
index named `explorer_ttl_index` whose `expireAfterSeconds` (100)
differs from the configured TTL (3600) and silently keeps it. -/
theorem ensure_ttl_index_stale_counterexample :
    ensure_ttl_index [("explorer_ttl_index", some 100)] 3600 =
      [("explorer_ttl_index", some 100)] ∧
    lookup_index (ensure_ttl_index [("explorer_ttl_index", some 100)] 3600)
      "explorer_ttl_index" = some (some 100) ∧
    some (100 : Nat) ≠ some 3600 := by decide

/-- C9 witness for the amended theorem: the DAL setup recreates a
mismatched index with the configured TTL, while the legacy variant keeps
an existing index unchanged. -/
theorem ttl_index_reconciliation_witness :
    lookup_index (setup_ttl_index [("cache_ttl_index", some 100)] 3600)
      "cache_ttl_index" = some (some 3600) ∧
    (([("explorer_ttl_index", some 100)] : IndexConfig).map
      (fun p => p.1)).contains "explorer_ttl_index" = true ∧
    ensure_ttl_index [("explorer_ttl_index", some 100)] 3600 =
      [("explorer_ttl_index", some 100)] :=
  ⟨ttl_index_reconciliation.1 _ _, by decide,
   ttl_index_reconciliation.2 _ _ (by decide)⟩
